import Mathlib

/-!
Shallow embedding of the Arbit-MCP arbitrage services
(`src/services/MCPService.ts`, `src/services/MetricsService.ts`,
`src/services/WalletService.ts`) together with proofs about the
claims made by the specification. Numeric fields that the source
handles as JS numbers are modelled over `ℚ`; maps are modelled as
association lists; asynchronous collaborator calls are modelled as
explicit environments/oracles passed to the translated functions.
-/

namespace Arbit

/-- Exchange record: the fields of the `Exchange` interface
(`types/arbitrage`) read by the services embedded below.  The source
field `type` ('DEX' | 'CEX' | 'Hybrid') is named `etype` here. -/
structure Exchange where
  name : String
  etype : String
  isActive : Bool
  deriving Repr, DecidableEq

/-- Price-data input to the gas estimators: the fields read by
`GasOptimizationService.estimateBuyGas` / `estimateSellGas`
(`baseToken`, and an optional `exchange` carrying `type` and `name`,
matching the optional chaining `price.exchange?.type`,
`price.exchange?.name?.includes(...)` in the source). -/
structure PriceData where
  baseToken : String
  exchange : Option Exchange
  deriving Repr, DecidableEq

/-- GasOptimizationService.estimateBuyGas (MCPService.ts lines 1214-1239):
21000 base gas, plus 65000 when the base token is neither ETH nor AVAX,
plus 150000 for a DEX venue, plus 50000 when the venue name contains
"Uniswap".  The catch-all fallback of 250000 in the source is dead code
for the translated body, which is total. -/
def estimateBuyGas (buyPrice : PriceData) : Nat :=
  let gas := 21000
  let gas := if buyPrice.baseToken ≠ "ETH" ∧ buyPrice.baseToken ≠ "AVAX" then gas + 65000 else gas
  let gas := if buyPrice.exchange.map Exchange.etype = some "DEX" then gas + 150000 else gas
  let gas :=
    if buyPrice.exchange.map (fun e => e.name.containsSubstr "Uniswap".toSubstring) = some true then
      gas + 50000
    else gas
  gas

/-- GasOptimizationService.estimateSellGas (MCPService.ts lines 1244-1269):
the sell-leg estimator, translated separately from its own source body. -/
def estimateSellGas (sellPrice : PriceData) : Nat :=
  let gas := 21000
  let gas := if sellPrice.baseToken ≠ "ETH" ∧ sellPrice.baseToken ≠ "AVAX" then gas + 65000 else gas
  let gas := if sellPrice.exchange.map Exchange.etype = some "DEX" then gas + 150000 else gas
  let gas :=
    if sellPrice.exchange.map (fun e => e.name.containsSubstr "Uniswap".toSubstring) = some true then
      gas + 50000
    else gas
  gas

/-- C10: the gas estimators for the two legs are the same function — for
every price-data input `p`, `estimateBuyGas p = estimateSellGas p`; both
compute 21000 base gas plus identical token (65000 for non-ETH/AVAX),
DEX (150000) and Uniswap (50000) surcharges. -/
theorem estimateBuyGas_eq_estimateSellGas (p : PriceData) :
    estimateBuyGas p = estimateSellGas p := rfl

/-- GasOptimizationService.calculateOptimalGasPrice (MCPService.ts lines
1098-1124): congestion multiplier (1.2 above 0.8, 1.1 above 0.6, 0.9
below 0.3, else unchanged), then clamped to [0.8×, 1.5×] of the observed
price via `Math.max(minPrice, Math.min(optimalPrice, maxPrice))`. -/
def calculateOptimalGasPrice (currentPrice congestion : ℚ) : ℚ :=
  let optimalPrice := currentPrice
  let optimalPrice :=
    if congestion > 0.8 then optimalPrice * 1.2
    else if congestion > 0.6 then optimalPrice * 1.1
    else if congestion < 0.3 then optimalPrice * 0.9
    else optimalPrice
  let minPrice := currentPrice * 0.8
  let maxPrice := currentPrice * 1.5
  max minPrice (min optimalPrice maxPrice)

/-- Congestion multiplier as the specification words it: 1.2 when
congestion exceeds 0.8, 1.1 when it exceeds 0.6, 0.9 when it is below
0.3, and 1.0 otherwise.  Used to compare the code's advisor against the
spec sentence of C6. -/
def specCongestionMultiplier (congestion : ℚ) : ℚ :=
  if congestion > 0.8 then 1.2
  else if congestion > 0.6 then 1.1
  else if congestion < 0.3 then 0.9
  else 1

/-- C6 counterexample: the claim asserts the advisor's result is
additionally clamped to a hard network-specific ceiling, but no such
ceiling exists in `calculateOptimalGasPrice` or `optimizeForTrade`.  At
observed price 1000 gwei and congestion 0.9 the advisor returns 1200
gwei, which exceeds the only configured hard gas-price ceiling in the
repository (`MAX_GAS_PRICE`, default 100 gwei, applied elsewhere). -/
theorem calculateOptimalGasPrice_exceeds_ceiling :
    calculateOptimalGasPrice 1000 0.9 = 1200 ∧
    (100 : ℚ) < calculateOptimalGasPrice 1000 0.9 := by
  constructor <;> norm_num [calculateOptimalGasPrice]

/-- C6 (amended): for every positive observed price `p` and congestion
`c`, the advisor returns exactly `p` times the congestion multiplier
(1.2 when c > 0.8, 1.1 when 0.6 < c ≤ 0.8, 0.9 when c < 0.3, 1.0
otherwise); the result always lies in [0.8·p, 1.5·p], and above 0.8
congestion (in particular at 0.9) it lies in [1.2·p, 1.5·p].  No
network-specific ceiling is applied. -/
theorem calculateOptimalGasPrice_spec (p c : ℚ) (hp : 0 < p) :
    calculateOptimalGasPrice p c = p * specCongestionMultiplier c ∧
    0.8 * p ≤ calculateOptimalGasPrice p c ∧
    calculateOptimalGasPrice p c ≤ 1.5 * p ∧
    (c > 0.8 → 1.2 * p ≤ calculateOptimalGasPrice p c) := by
  unfold calculateOptimalGasPrice specCongestionMultiplier
  dsimp only
  split_ifs with h1 h2 h3
  · rw [min_eq_left (by nlinarith), max_eq_right (by nlinarith)]
    refine ⟨by ring, by nlinarith, by nlinarith, fun _ => by nlinarith⟩
  · rw [min_eq_left (by nlinarith), max_eq_right (by nlinarith)]
    refine ⟨by ring, by nlinarith, by nlinarith, fun hc => absurd hc (by linarith)⟩
  · rw [min_eq_left (by nlinarith), max_eq_right (by nlinarith)]
    refine ⟨by ring, by nlinarith, by nlinarith, fun hc => absurd hc (by linarith)⟩
  · rw [min_eq_left (by nlinarith), max_eq_right (by nlinarith)]
    refine ⟨by ring, by nlinarith, by nlinarith, fun hc => absurd hc (by linarith)⟩

/-- C6 witness: the amended statement instantiated at observed price 10
and congestion 0.9. -/
theorem calculateOptimalGasPrice_spec_witness :
    calculateOptimalGasPrice 10 0.9 = 10 * specCongestionMultiplier 0.9 ∧
    0.8 * 10 ≤ calculateOptimalGasPrice 10 0.9 ∧
    calculateOptimalGasPrice 10 0.9 ≤ 1.5 * 10 ∧
    ((0.9 : ℚ) > 0.8 → 1.2 * 10 ≤ calculateOptimalGasPrice 10 0.9) :=
  calculateOptimalGasPrice_spec 10 0.9 (by norm_num)

/-! ## TradeExecutionService (MCPService.ts lines 231-829) -/

/-- Status values of the `Transaction` interface: 'pending' | 'confirmed' | 'failed'. -/
inductive TxStatus
  | pending
  | confirmed
  | failedTx
  deriving Repr, DecidableEq

/-- Status values of the `Trade` interface (`types/arbitrage`):
'pending' | 'executing' | 'completed' | 'failed' | 'cancelled'.
The specification's `failed_sell_unresolved` has no counterpart here. -/
inductive TradeStatus
  | pending
  | executing
  | completed
  | failed
  | cancelled
  deriving Repr, DecidableEq

/-- Token pair: the two fields read by the embedded services. -/
structure TokenPair where
  baseToken : String
  quoteToken : String
  deriving Repr, DecidableEq

/-- Profit record built by `calculateActualProfit` (MCPService.ts lines 694-728). -/
structure ProfitCalc where
  percentage : ℚ
  absolute : ℚ
  usd : ℚ
  afterFees : ℚ
  afterGas : ℚ
  netProfit : ℚ
  deriving Repr, DecidableEq

/-- Trade record: the fields of the `Trade` interface read or written by
`TradeExecutionService`.  `buyExchange`/`sellExchange` are optional to
mirror the runtime truthiness checks `!trade.buyExchange` in
`validateTrade`; `buyTransaction`/`sellTransaction` model the optional
per-leg transaction references of the interface (the service never
writes them — relevant to C2). -/
structure Trade where
  id : String
  tokenPair : TokenPair
  buyExchange : Option Exchange
  sellExchange : Option Exchange
  tradeSize : ℚ
  buyPrice : ℚ
  status : TradeStatus
  error : Option String
  actualProfit : Option ProfitCalc
  buyTransaction : Option String
  sellTransaction : Option String
  deriving Repr, DecidableEq

/-- Error kinds thrown inside `executeArbitrageTrade` and `validateTrade`
(the `ValidationError` / `ExecutionError` codes of the source). -/
inductive TradeError
  | duplicateTrade
  | invalidTokenPair
  | invalidExchanges
  | inactiveExchange
  | invalidTradeSize
  | insufficientBalance
  | duplicatePairTrade
  | buyExecutionFailed (msg : String)
  | sellExecutionFailed (msg : String)
  | transactionFailed (hash : String)
  | confirmationTimeout (hash : String)
  deriving Repr, DecidableEq

/-- Message carried by each error, as interpolated by the source; the
catch block stores it into `trade.error`. -/
def TradeError.message : TradeError → String
  | .duplicateTrade => "Trade is already being executed"
  | .invalidTokenPair => "Invalid token pair"
  | .invalidExchanges => "Invalid exchanges"
  | .inactiveExchange => "One or more exchanges are inactive"
  | .invalidTradeSize => "Invalid trade size"
  | .insufficientBalance => "Insufficient balance"
  | .duplicatePairTrade => "Already trading this token pair"
  | .buyExecutionFailed msg => "Buy transaction failed: " ++ msg
  | .sellExecutionFailed msg => "Sell transaction failed: " ++ msg
  | .transactionFailed hash => "Transaction failed: " ++ hash
  | .confirmationTimeout hash => "Transaction confirmation timeout: " ++ hash

/-- TradeExecutionService.validateTrade (MCPService.ts lines 402-450):
duplicate-trade check, token pair well-formedness (JS truthiness of the
token strings), exchange presence and activity, positive trade size,
balance sufficiency, and the single-active-trade-per-base-token check
`activeTrades.filter(t => t.tokenPair.baseToken === trade.tokenPair.baseToken)`. -/
def validateTrade (activeTrades : List Trade) (balance : ℚ) (trade : Trade) :
    Except TradeError Unit :=
  if activeTrades.any (fun t => t.id == trade.id) then .error .duplicateTrade
  else if trade.tokenPair.baseToken == "" || trade.tokenPair.quoteToken == "" then
    .error .invalidTokenPair
  else
    match trade.buyExchange, trade.sellExchange with
    | some buyEx, some sellEx =>
      if !buyEx.isActive || !sellEx.isActive then .error .inactiveExchange
      else if trade.tradeSize ≤ 0 then .error .invalidTradeSize
      else if balance < trade.tradeSize then .error .insufficientBalance
      else if (activeTrades.filter
          (fun t => t.tokenPair.baseToken == trade.tokenPair.baseToken)).length > 0 then
        .error .duplicatePairTrade
      else .ok ()
    | _, _ => .error .invalidExchanges

/-- TradeExecutionService.waitForTransactionConfirmation (MCPService.ts
lines 635-663): poll `pendingTransactions.get(hash)` until 'confirmed'
(return), 'failed' (throw), or the timeout elapses (throw).  The finite
list is the sequence of observations of the pending-transaction map at
the successive 1-second polls within the 30-second timeout; its end is
the timeout. -/
def waitForTransactionConfirmation (hash : String) :
    List (Option TxStatus) → Except TradeError Unit
  | [] => .error (.confirmationTimeout hash)
  | obs :: rest =>
    match obs with
    | some .confirmed => .ok ()
    | some .failedTx => .error (.transactionFailed hash)
    | _ => waitForTransactionConfirmation hash rest

/-- Result of `walletService.executeTransaction` as consumed by
`executeArbitrageTrade`: success flag, transaction hash, error text, and
the numeric fields read by `calculateActualProfit`. -/
structure SubmitOutcome where
  success : Bool
  transactionHash : String
  err : String
  amount : ℚ
  gasUsed : ℚ
  gasPrice : ℚ
  deriving Repr, DecidableEq

/-- Environment of one `executeArbitrageTrade` run: the outcomes of the
collaborator calls the coordinator awaits.  `buySubmit`/`sellSubmit` are
the results of `executeBuyTransaction`/`executeSellTransaction`
(`.error` models the submission path throwing); `polls h` is the
confirmation-poll trace the wallet event handlers produce for hash `h`. -/
structure ExecEnv where
  balance : ℚ
  buySubmit : Except String SubmitOutcome
  sellSubmit : Except String SubmitOutcome
  polls : String → List (Option TxStatus)

/-- Emergency notification payload sent by `handleFailedSell`
(MCPService.ts lines 668-689). -/
structure EmergencyNote where
  ntype : String
  tradeId : String
  buyTransactionHash : String
  message : String
  deriving Repr, DecidableEq

/-- TradeResult record returned by `executeArbitrageTrade`. -/
structure TradeResultR where
  success : Bool
  tradeId : String
  actualProfit : Option ProfitCalc
  gasUsed : Option ℚ
  transactionHash : Option String
  error : Option String
  deriving Repr, DecidableEq

/-- Observable outcome of one `executeArbitrageTrade` run: the mutated
trade object (which is exactly the record handed to
`database.saveTrade`), the returned `TradeResult`, the emergency
notifications sent by `handleFailedSell`, and which events/notifications
fired. -/
structure ExecOutcome where
  trade : Trade
  result : TradeResultR
  emergencyNotes : List EmergencyNote
  failureNotified : Bool
  completedEmitted : Bool
  failedEmitted : Bool
  deriving Repr, DecidableEq

/-- Catch block of `executeArbitrageTrade` (MCPService.ts lines 371-396):
set status 'failed', record the error message, save the trade, emit
`tradeFailed`, send the failure notification. -/
def failTrade (trade : Trade) (msg : String) (notes : List EmergencyNote) : ExecOutcome :=
  { trade := { trade with status := .failed, error := some msg },
    result := { success := false, tradeId := trade.id, actualProfit := none,
                gasUsed := none, transactionHash := none, error := some msg },
    emergencyNotes := notes,
    failureNotified := true,
    completedEmitted := false,
    failedEmitted := true }

/-- TradeExecutionService.calculateActualProfit (MCPService.ts lines
694-728), over ℚ; `buyResult.gasPrice || sellResult.gasPrice` is the JS
falsy fallback on a zero gas price. -/
def calculateActualProfit (trade : Trade) (buyResult sellResult : SubmitOutcome) : ProfitCalc :=
  let buyAmount := buyResult.amount
  let sellAmount := sellResult.amount
  let actualProfit := sellAmount - buyAmount
  let profitPercentage := actualProfit / buyAmount * 100
  let totalGasCost := (buyResult.gasUsed + sellResult.gasUsed) *
    (if buyResult.gasPrice ≠ 0 then buyResult.gasPrice else sellResult.gasPrice)
  let netProfit := actualProfit - totalGasCost
  { percentage := profitPercentage, absolute := actualProfit,
    usd := actualProfit * trade.buyPrice, afterFees := actualProfit,
    afterGas := netProfit, netProfit := netProfit }

/-- TradeExecutionService.executeArbitrageTrade (MCPService.ts lines
301-397): validate, mark executing, submit the buy leg, await its
confirmation, submit the sell leg (on a sell result with
`success == false` run `handleFailedSell`, which sends exactly one
emergency notification carrying the buy transaction hash, then throw),
await its confirmation, then mark completed; every thrown error lands in
the catch block `failTrade`. -/
def executeArbitrageTrade (env : ExecEnv) (activeTrades : List Trade) (trade0 : Trade) :
    ExecOutcome :=
  match validateTrade activeTrades env.balance trade0 with
  | .error e => failTrade trade0 e.message []
  | .ok _ =>
    let trade := { trade0 with status := .executing }
    match env.buySubmit with
    | .error msg => failTrade trade (TradeError.message (.buyExecutionFailed msg)) []
    | .ok buyResult =>
      if !buyResult.success then
        failTrade trade (TradeError.message (.buyExecutionFailed buyResult.err)) []
      else
        match waitForTransactionConfirmation buyResult.transactionHash
            (env.polls buyResult.transactionHash) with
        | .error e => failTrade trade e.message []
        | .ok _ =>
          match env.sellSubmit with
          | .error msg => failTrade trade (TradeError.message (.sellExecutionFailed msg)) []
          | .ok sellResult =>
            if !sellResult.success then
              let note : EmergencyNote :=
                { ntype := "FAILED_SELL", tradeId := trade.id,
                  buyTransactionHash := buyResult.transactionHash,
                  message := "Sell transaction failed, bought tokens need attention" }
              failTrade trade (TradeError.message (.sellExecutionFailed sellResult.err)) [note]
            else
              match waitForTransactionConfirmation sellResult.transactionHash
                  (env.polls sellResult.transactionHash) with
              | .error e => failTrade trade e.message []
              | .ok _ =>
                let actualProfit := calculateActualProfit trade buyResult sellResult
                { trade := { trade with status := .completed, actualProfit := some actualProfit },
                  result := { success := true, tradeId := trade.id,
                              actualProfit := some actualProfit,
                              gasUsed := some (buyResult.gasUsed + sellResult.gasUsed),
                              transactionHash := some (buyResult.transactionHash ++ "," ++
                                sellResult.transactionHash),
                              error := none },
                  emergencyNotes := [],
                  failureNotified := false,
                  completedEmitted := true,
                  failedEmitted := false }

/-- Pending transaction entry of `TradeExecutionService.pendingTransactions`.
The objects stored by `executeBuyTransaction`/`executeSellTransaction` are
spreads of the prepared transaction and carry no `tradeId` field, hence the
`Option`; `cancelTrade` compares `tx.tradeId === tradeId`. -/
structure PendingTx where
  hash : String
  tradeId : Option String
  status : TxStatus
  deriving Repr, DecidableEq

/-- Mutable state of `TradeExecutionService` relevant to `cancelTrade`. -/
structure ExecState where
  activeTrades : List Trade
  pendingTransactions : List PendingTx
  deriving Repr, DecidableEq

/-- Observable outcome of one `cancelTrade` call: the returned boolean,
the state after the call, the record handed to `database.saveTrade`, and
the hashes passed to `walletService.cancelTransaction`. -/
structure CancelOutcome where
  ok : Bool
  state : ExecState
  savedTrade : Option Trade
  cancelledTxs : List String
  deriving Repr, DecidableEq

/-- TradeExecutionService.cancelTrade (MCPService.ts lines 768-802): look
the trade up in `activeTrades`; if absent return false; otherwise set its
status to 'cancelled', remove it from `activeTrades`, cancel and drop the
pending transactions whose `tradeId` matches, and save the trade.  No
check of the buy leg's confirmation state is performed anywhere. -/
def cancelTrade (st : ExecState) (tradeId : String) : CancelOutcome :=
  match st.activeTrades.find? (fun t => t.id == tradeId) with
  | none => { ok := false, state := st, savedTrade := none, cancelledTxs := [] }
  | some trade =>
    let trade := { trade with status := .cancelled }
    let actives := st.activeTrades.filter (fun t => !(t.id == tradeId))
    let toCancel := st.pendingTransactions.filter (fun tx => tx.tradeId == some tradeId)
    let remaining := st.pendingTransactions.filter (fun tx => !(tx.tradeId == some tradeId))
    { ok := true,
      state := { activeTrades := actives, pendingTransactions := remaining },
      savedTrade := some trade,
      cancelledTxs := toCancel.map PendingTx.hash }

/-- Helper: if the confirmation poll loop returns normally, some poll
observed the transaction in status 'confirmed'. -/
theorem waitFor_ok_mem (hash : String) (polls : List (Option TxStatus))
    (h : waitForTransactionConfirmation hash polls = .ok ()) :
    some TxStatus.confirmed ∈ polls := by
  induction polls with
  | nil => simp [waitForTransactionConfirmation] at h
  | cons obs rest ih =>
    match obs with
    | some .confirmed => exact List.mem_cons_self _ _
    | some .failedTx => simp [waitForTransactionConfirmation] at h
    | some .pending =>
      exact List.mem_cons_of_mem _ (ih (by simpa [waitForTransactionConfirmation] using h))
    | none =>
      exact List.mem_cons_of_mem _ (ih (by simpa [waitForTransactionConfirmation] using h))

/-- C1: if an `executeArbitrageTrade` run ends with the trade in status
'completed', then the buy transaction was submitted successfully and its
confirmation wait returned with an observed 'confirmed' poll, and
likewise for the sell transaction; no execution path reaches 'completed'
with an unconfirmed or absent leg. -/
theorem completed_implies_both_legs_confirmed
    (env : ExecEnv) (activeTrades : List Trade) (trade : Trade)
    (h : (executeArbitrageTrade env activeTrades trade).trade.status = .completed) :
    ∃ buyR sellR : SubmitOutcome,
      env.buySubmit = .ok buyR ∧ buyR.success = true ∧
      waitForTransactionConfirmation buyR.transactionHash
        (env.polls buyR.transactionHash) = .ok () ∧
      some TxStatus.confirmed ∈ env.polls buyR.transactionHash ∧
      env.sellSubmit = .ok sellR ∧ sellR.success = true ∧
      waitForTransactionConfirmation sellR.transactionHash
        (env.polls sellR.transactionHash) = .ok () ∧
      some TxStatus.confirmed ∈ env.polls sellR.transactionHash := by
  unfold executeArbitrageTrade at h
  split at h
  · exact absurd h (by simp [failTrade])
  · split at h
    · exact absurd h (by simp [failTrade])
    · rename_i buyResult hbuy
      split at h
      · exact absurd h (by simp [failTrade])
      · rename_i hbs
        split at h
        · exact absurd h (by simp [failTrade])
        · rename_i u hbw
          split at h
          · exact absurd h (by simp [failTrade])
          · rename_i sellResult hsell
            split at h
            · exact absurd h (by simp [failTrade])
            · rename_i hss
              split at h
              · exact absurd h (by simp [failTrade])
              · rename_i v hsw
                refine ⟨buyResult, sellResult, hbuy, ?_, ?_, ?_, hsell, ?_, ?_, ?_⟩
                · simpa using hbs
                · cases u; exact hbw
                · exact waitFor_ok_mem _ _ (by cases u; exact hbw)
                · simpa using hss
                · cases v; exact hsw
                · exact waitFor_ok_mem _ _ (by cases v; exact hsw)

/-- Shared concrete trade used by the concrete evaluations below: a
well-formed trade on the WAVAX/USDC pair between two active DEX venues. -/
def sampleTrade : Trade :=
  { id := "t1",
    tokenPair := { baseToken := "WAVAX", quoteToken := "USDC" },
    buyExchange := some { name := "Pangolin", etype := "DEX", isActive := true },
    sellExchange := some { name := "TraderJoe", etype := "DEX", isActive := true },
    tradeSize := 1, buyPrice := 2000,
    status := .pending, error := none, actualProfit := none,
    buyTransaction := none, sellTransaction := none }

/-- Environment in which both legs submit successfully and both are
observed 'confirmed' at the second poll. -/
def c1Env : ExecEnv :=
  { balance := 10,
    buySubmit := .ok { success := true, transactionHash := "0xbuy", err := "",
                       amount := 1, gasUsed := 21000, gasPrice := 20 },
    sellSubmit := .ok { success := true, transactionHash := "0xsell", err := "",
                        amount := 2, gasUsed := 21000, gasPrice := 20 },
    polls := fun _ => [some .pending, some .confirmed] }

/-- C1 witness: in `c1Env` the run completes, and the theorem yields the
confirmed legs. -/
theorem completed_implies_both_legs_confirmed_witness :
    (executeArbitrageTrade c1Env [] sampleTrade).trade.status = .completed ∧
    ∃ buyR sellR : SubmitOutcome,
      c1Env.buySubmit = .ok buyR ∧ buyR.success = true ∧
      waitForTransactionConfirmation buyR.transactionHash
        (c1Env.polls buyR.transactionHash) = .ok () ∧
      some TxStatus.confirmed ∈ c1Env.polls buyR.transactionHash ∧
      c1Env.sellSubmit = .ok sellR ∧ sellR.success = true ∧
      waitForTransactionConfirmation sellR.transactionHash
        (c1Env.polls sellR.transactionHash) = .ok () ∧
      some TxStatus.confirmed ∈ c1Env.polls sellR.transactionHash :=
  ⟨by decide, completed_implies_both_legs_confirmed c1Env [] sampleTrade (by decide)⟩

/-- Environment in which the buy leg confirms and the sell submitter then
returns `success == false` (the simulated revert of the claim). -/
def c2Env : ExecEnv :=
  { balance := 10,
    buySubmit := .ok { success := true, transactionHash := "0xbuy", err := "",
                       amount := 1, gasUsed := 21000, gasPrice := 20 },
    sellSubmit := .ok { success := false, transactionHash := "", err := "execution reverted",
                        amount := 0, gasUsed := 0, gasPrice := 0 },
    polls := fun _ => [some .pending, some .confirmed] }

/-- C2 counterexample: with the buy leg confirmed and the sell leg failing,
the record handed to storage has status 'failed' — the source status type
has no 'failed_sell_unresolved' value at all — and retains no buy
transaction reference (`buyTransaction = none`); the buy hash survives
only inside the single emergency notification. -/
theorem failedSell_claim_counterexample :
    (executeArbitrageTrade c2Env [] sampleTrade).trade.status = TradeStatus.failed ∧
    (executeArbitrageTrade c2Env [] sampleTrade).trade.buyTransaction = none ∧
    (executeArbitrageTrade c2Env [] sampleTrade).emergencyNotes =
      [{ ntype := "FAILED_SELL", tradeId := "t1", buyTransactionHash := "0xbuy",
         message := "Sell transaction failed, bought tokens need attention" }] := by
  refine ⟨rfl, rfl, rfl⟩

/-- C2 (amended): when the buy leg confirmed and the sell submitter
returns `success == false`, the trade transitions to the terminal status
'failed' (not `failed_sell_unresolved`, which does not exist in the
code), exactly one emergency notification is emitted and it carries the
buy transaction hash, the failure notification fires, and the stored
trade record's buy-transaction reference is left untouched (so the hash
is retained only in the notification, not on the stored record). -/
theorem failedSell_outcome
    (env : ExecEnv) (activeTrades : List Trade) (trade : Trade)
    (buyResult sellResult : SubmitOutcome)
    (hv : validateTrade activeTrades env.balance trade = .ok ())
    (hb : env.buySubmit = .ok buyResult) (hbs : buyResult.success = true)
    (hw : waitForTransactionConfirmation buyResult.transactionHash
      (env.polls buyResult.transactionHash) = .ok ())
    (hs : env.sellSubmit = .ok sellResult) (hss : sellResult.success = false) :
    (executeArbitrageTrade env activeTrades trade).trade.status = .failed ∧
    (executeArbitrageTrade env activeTrades trade).emergencyNotes =
      [{ ntype := "FAILED_SELL", tradeId := trade.id,
         buyTransactionHash := buyResult.transactionHash,
         message := "Sell transaction failed, bought tokens need attention" }] ∧
    (executeArbitrageTrade env activeTrades trade).trade.buyTransaction =
      trade.buyTransaction ∧
    (executeArbitrageTrade env activeTrades trade).failureNotified = true := by
  unfold executeArbitrageTrade
  rw [hv, hb, hs]
  simp [failTrade, hbs, hss, hw]

/-- C2 amended-theorem witness: the amended statement instantiated in
`c2Env` on `sampleTrade`. -/
theorem failedSell_outcome_witness :
    (executeArbitrageTrade c2Env [] sampleTrade).trade.status = .failed ∧
    (executeArbitrageTrade c2Env [] sampleTrade).emergencyNotes =
      [{ ntype := "FAILED_SELL", tradeId := sampleTrade.id,
         buyTransactionHash := "0xbuy",
         message := "Sell transaction failed, bought tokens need attention" }] ∧
    (executeArbitrageTrade c2Env [] sampleTrade).trade.buyTransaction =
      sampleTrade.buyTransaction ∧
    (executeArbitrageTrade c2Env [] sampleTrade).failureNotified = true :=
  failedSell_outcome c2Env [] sampleTrade
    { success := true, transactionHash := "0xbuy", err := "",
      amount := 1, gasUsed := 21000, gasPrice := 20 }
    { success := false, transactionHash := "", err := "execution reverted",
      amount := 0, gasUsed := 0, gasPrice := 0 }
    rfl rfl rfl rfl rfl rfl

/-- Concrete state for the cancellation counterexample: trade `t1` is
executing, its buy transaction is already 'confirmed' in the pending map. -/
def c7State : ExecState :=
  { activeTrades := [{ sampleTrade with status := .executing }],
    pendingTransactions := [{ hash := "0xbuy", tradeId := none, status := .confirmed }] }

/-- C7 counterexample: cancelling a trade whose buy leg has already
confirmed is not rejected — `cancelTrade` returns true and moves the
trade to 'cancelled', contradicting the claim that a cancellation
request after buy-confirmation is rejected by the state machine. -/
theorem cancelTrade_after_buy_confirmed_counterexample :
    (cancelTrade c7State "t1").ok = true ∧
    (cancelTrade c7State "t1").savedTrade =
      some { sampleTrade with status := .cancelled } ∧
    (cancelTrade c7State "t1").state.activeTrades = [] := by
  refine ⟨rfl, ?_, rfl⟩
  decide

/-- C7 (amended): `cancelTrade` never consults the legs' confirmation
state: it cancels every trade present in `activeTrades` — returning true
and saving the trade with status 'cancelled' — and returns false exactly
when the trade id is not active.  There is no state-machine rejection of
cancellation after buy confirmation. -/
theorem cancelTrade_unconditional (st : ExecState) (tradeId : String) :
    ((cancelTrade st tradeId).ok = true ↔
      (st.activeTrades.find? (fun t => t.id == tradeId)).isSome) ∧
    (cancelTrade st tradeId).savedTrade =
      (st.activeTrades.find? (fun t => t.id == tradeId)).map
        (fun t => { t with status := .cancelled }) := by
  unfold cancelTrade
  cases h : st.activeTrades.find? (fun t => t.id == tradeId) with
  | none => simp
  | some trade => simp

/-! ## ArbitrageEngine and MetricsService (MetricsService.ts lines 373-381,
470-484, 870-898, 1021-1088, 1093-1119) -/

/-- Opportunity fields read by the engine's admission path
(`handlePriceUpdate`, `executeHighPriorityTrades`, `shouldExecuteTrade`,
`executeTrade`).  `timestamp` is the detection time in milliseconds — the
admission path never reads it (relevant to C8). -/
structure Opportunity where
  id : String
  baseToken : String
  quoteToken : String
  profitPercentage : ℚ
  expectedProfitUsd : ℚ
  riskScore : ℚ
  mevHigh : Bool
  gasTotalCost : ℚ
  timestamp : ℕ
  deriving Repr, DecidableEq

/-- Active-trade entry of the engine's `activeTrades` map: the fields read
by the admission path. -/
structure EngineTrade where
  id : String
  opportunityId : String
  baseToken : String
  quoteToken : String
  deriving Repr, DecidableEq

/-- ArbitrageEngine.shouldExecuteTrade (MetricsService.ts lines 1050-1088):
reject when a trade with the same base token is already active, when risk
management rejects, when MEV risk is 'high', or when gas cost exceeds 50%
of the expected profit.  `riskOk` is the outcome of the awaited
`riskManagement.validateTrade` call. -/
def shouldExecuteTrade (riskOk : Opportunity → Bool) (activeTrades : List EngineTrade)
    (o : Opportunity) : Bool :=
  if (activeTrades.filter (fun t => t.baseToken == o.baseToken)).length > 0 then false
  else if !riskOk o then false
  else if o.mevHigh then false
  else if o.gasTotalCost / o.expectedProfitUsd * 100 > 50 then false
  else true

/-- Ranking score used by `executeHighPriorityTrades`:
`0.7 × expectedProfit.percentage + 0.3 × (1 − riskScore)`. -/
def oppScore (o : Opportunity) : ℚ :=
  o.profitPercentage * 0.7 + (1 - o.riskScore) * 0.3

/-- Insertion step of the descending-score sort. -/
def insertByScore (o : Opportunity) : List Opportunity → List Opportunity
  | [] => [o]
  | x :: xs => if oppScore x ≤ oppScore o then o :: x :: xs else x :: insertByScore o xs

/-- Sort by descending score, modelling the comparator
`(a, b) => bScore - aScore` of the source. -/
def sortByScore : List Opportunity → List Opportunity
  | [] => []
  | x :: xs => insertByScore x (sortByScore xs)

/-- Trade record created by ArbitrageEngine.executeTrade (MetricsService.ts
lines 1093-1119) and inserted into `activeTrades`; the generated trade id
is modelled deterministically from the opportunity id. -/
def mkEngineTrade (o : Opportunity) : EngineTrade :=
  { id := "trade_" ++ o.id, opportunityId := o.id,
    baseToken := o.baseToken, quoteToken := o.quoteToken }

/-- Admission loop of ArbitrageEngine.executeHighPriorityTrades
(MetricsService.ts lines 1030-1039): for each candidate, break once
`activeTrades.size >= maxConcurrentTrades`, otherwise admit it when
`shouldExecuteTrade` passes.  Admission is `executeTrade`'s insertion
`activeTrades.set(tradeId, trade)`; the settlement handlers only ever
delete from the set, so running the loop without deletions gives the
worst-case (largest) active set. -/
def admitLoop (maxConcurrentTrades : ℕ) (riskOk : Opportunity → Bool) :
    List Opportunity → List EngineTrade → List EngineTrade
  | [], actives => actives
  | o :: rest, actives =>
    if actives.length ≥ maxConcurrentTrades then actives
    else if shouldExecuteTrade riskOk actives o then
      admitLoop maxConcurrentTrades riskOk rest (mkEngineTrade o :: actives)
    else admitLoop maxConcurrentTrades riskOk rest actives

/-- ArbitrageEngine.executeHighPriorityTrades (MetricsService.ts lines
1021-1045): sort by score descending, keep the first
`maxConcurrentTrades` candidates (`slice(0, maxConcurrentTrades)`), then
run the admission loop. -/
def executeHighPriorityTrades (maxConcurrentTrades : ℕ) (riskOk : Opportunity → Bool)
    (activeTrades : List EngineTrade) (opportunities : List Opportunity) : List EngineTrade :=
  admitLoop maxConcurrentTrades riskOk
    ((sortByScore opportunities).take maxConcurrentTrades) activeTrades

/-- Metrics counters of MetricsService touched by the engine's drain path:
`opportunitiesMissed` (incremented only by `recordMissedOpportunity`) and
the cache entries written by `recordOpportunitiesDetected`. -/
structure TradeMetrics where
  opportunitiesMissed : ℕ
  detectedCounts : List ℕ
  deriving Repr, DecidableEq

/-- MetricsService.recordMissedOpportunity (MetricsService.ts lines
373-381): increments `opportunitiesMissed`.  No caller exists anywhere in
the repository. -/
def recordMissedOpportunity (m : TradeMetrics) : TradeMetrics :=
  { m with opportunitiesMissed := m.opportunitiesMissed + 1 }

/-- MetricsService.recordOpportunitiesDetected (MetricsService.ts lines
473-484): stores the detected count in the metrics cache; it does not
touch `opportunitiesMissed`. -/
def recordOpportunitiesDetected (count : ℕ) (m : TradeMetrics) : TradeMetrics :=
  { m with detectedCounts := m.detectedCounts ++ [count] }

/-- Engine state touched by `handlePriceUpdate`. -/
structure EngineState where
  profitThreshold : ℚ
  maxConcurrentTrades : ℕ
  activeTrades : List EngineTrade
  opportunities : List Opportunity
  metrics : TradeMetrics
  deriving Repr, DecidableEq

/-- ArbitrageEngine.handlePriceUpdate drain path (MetricsService.ts lines
870-898) applied to the freshly detected opportunities: filter by
`expectedProfit.percentage >= profitThreshold`, store them in the
opportunities map, record the detected count, and run
`executeHighPriorityTrades`.  No expiry check of any kind is performed
and `recordMissedOpportunity` is never invoked. -/
def handlePriceUpdate (riskOk : Opportunity → Bool) (st : EngineState)
    (detected : List Opportunity) : EngineState :=
  let profitable := detected.filter (fun o => st.profitThreshold ≤ o.profitPercentage)
  let opportunities := st.opportunities ++ profitable
  let metrics := recordOpportunitiesDetected profitable.length st.metrics
  let actives := executeHighPriorityTrades st.maxConcurrentTrades riskOk st.activeTrades profitable
  { st with opportunities := opportunities, metrics := metrics, activeTrades := actives }

/-- Helper: the admission loop keeps the active set within the bound. -/
theorem admitLoop_length_le (maxC : ℕ) (riskOk : Opportunity → Bool)
    (opps : List Opportunity) :
    ∀ actives : List EngineTrade, actives.length ≤ maxC →
      (admitLoop maxC riskOk opps actives).length ≤ maxC := by
  induction opps with
  | nil =>
    intro actives h
    simpa [admitLoop] using h
  | cons o rest ih =>
    intro actives h
    unfold admitLoop
    split_ifs with h1 h2
    · exact h
    · exact ih _ (by simpa using Nat.succ_le_of_lt (Nat.lt_of_not_le h1))
    · exact ih _ h

/-- C5: for every batch of opportunities, the dispatcher never has more
than `maxConcurrentTrades` trades in the active set: starting from an
active set within the bound, the admission loop keeps it within the
bound, and once the active set has reached `maxConcurrentTrades` no
further opportunity is admitted at all. -/
theorem executeHighPriorityTrades_bounded (maxC : ℕ) (riskOk : Opportunity → Bool)
    (actives : List EngineTrade) (opps : List Opportunity)
    (h : actives.length ≤ maxC) :
    (executeHighPriorityTrades maxC riskOk actives opps).length ≤ maxC ∧
    (actives.length = maxC → executeHighPriorityTrades maxC riskOk actives opps = actives) := by
  constructor
  · exact admitLoop_length_le maxC riskOk _ actives h
  · intro heq
    unfold executeHighPriorityTrades
    cases h' : (sortByScore opps).take maxC with
    | nil => rfl
    | cons o rest => simp [admitLoop, heq]

/-- Flood of five profitable opportunities used as the C5 witness input. -/
def c5Opps : List Opportunity :=
  (List.range 5).map fun i =>
    { id := "o" ++ toString i, baseToken := "T" ++ toString i, quoteToken := "USDC",
      profitPercentage := 1 + i, expectedProfitUsd := 100, riskScore := 0.2,
      mevHigh := false, gasTotalCost := 10, timestamp := 0 }

/-- C5 witness: flooding an empty active set with five opportunities under
`maxConcurrentTrades = 2` admits at most two. -/
theorem executeHighPriorityTrades_bounded_witness :
    (executeHighPriorityTrades 2 (fun _ => true) [] c5Opps).length ≤ 2 ∧
    (([] : List EngineTrade).length = 2 →
      executeHighPriorityTrades 2 (fun _ => true) [] c5Opps = []) :=
  executeHighPriorityTrades_bounded 2 (fun _ => true) [] c5Opps (by decide)

/-- Helper: `shouldExecuteTrade` returns false whenever a trade with the
opportunity's base token is already active. -/
theorem shouldExecuteTrade_same_base_false (riskOk : Opportunity → Bool)
    (actives : List EngineTrade) (o : Opportunity) (t : EngineTrade)
    (ht : t ∈ actives) (hb : t.baseToken = o.baseToken) :
    shouldExecuteTrade riskOk actives o = false := by
  unfold shouldExecuteTrade
  have hpos : 0 < (actives.filter (fun u => u.baseToken == o.baseToken)).length :=
    List.length_pos.mpr (List.ne_nil_of_mem (List.mem_filter.mpr ⟨ht, by simp [hb]⟩))
  simp [hpos]

/-- Helper: the admission loop never creates an additional trade for a
base token that is already active — the count of active trades on that
base token is left unchanged by any batch. -/
theorem admitLoop_no_new_same_base (maxC : ℕ) (riskOk : Opportunity → Bool)
    (opps : List Opportunity) :
    ∀ (actives : List EngineTrade) (t : EngineTrade), t ∈ actives →
      (admitLoop maxC riskOk opps actives).countP (fun u => u.baseToken == t.baseToken)
        = actives.countP (fun u => u.baseToken == t.baseToken) := by
  induction opps with
  | nil =>
    intro actives t _
    rfl
  | cons o rest ih =>
    intro actives t ht
    unfold admitLoop
    split_ifs with h1 h2
    · rfl
    · have hne : ¬ o.baseToken = t.baseToken := by
        intro he
        have hfalse := shouldExecuteTrade_same_base_false riskOk actives o t ht he.symm
        rw [hfalse] at h2
        cases h2
      rw [ih (mkEngineTrade o :: actives) t (List.mem_cons_of_mem _ ht)]
      simp [List.countP_cons, mkEngineTrade, hne]
    · exact ih actives t ht

/-- C4: at most one trade is active per token pair — while a trade on a
base token is active, `shouldExecuteTrade` returns false for every
opportunity on that base token (in particular for the same token pair),
the admission loop creates no second trade for it, and the executor-side
`validateTrade` rejects a trade on an already-active base token. -/
theorem same_pair_second_opportunity_dropped
    (riskOk : Opportunity → Bool) (engineActives : List EngineTrade)
    (o : Opportunity) (t : EngineTrade)
    (ht : t ∈ engineActives) (hb : t.baseToken = o.baseToken)
    (maxC : ℕ) (opps : List Opportunity)
    (execActives : List Trade) (balance : ℚ) (tr tra : Trade)
    (hta : tra ∈ execActives)
    (hb2 : tra.tokenPair.baseToken = tr.tokenPair.baseToken) :
    shouldExecuteTrade riskOk engineActives o = false ∧
    (admitLoop maxC riskOk opps engineActives).countP
        (fun u => u.baseToken == o.baseToken)
      = engineActives.countP (fun u => u.baseToken == o.baseToken) ∧
    validateTrade execActives balance tr ≠ .ok () := by
  refine ⟨shouldExecuteTrade_same_base_false riskOk engineActives o t ht hb, ?_, ?_⟩
  · rw [← hb]
    exact admitLoop_no_new_same_base maxC riskOk opps engineActives t ht
  · intro hok
    have hmem : tra ∈ execActives.filter
        (fun u => u.tokenPair.baseToken == tr.tokenPair.baseToken) :=
      List.mem_filter.mpr ⟨hta, by simp [hb2]⟩
    have hpos : 0 < (execActives.filter
        (fun u => u.tokenPair.baseToken == tr.tokenPair.baseToken)).length :=
      List.length_pos.mpr (List.ne_nil_of_mem hmem)
    unfold validateTrade at hok
    repeat' split at hok
    all_goals first
      | cases hok
      | omega

/-- Active engine trade and same-pair opportunity for the C4 witness. -/
def c4ActiveTrade : EngineTrade :=
  { id := "trade_o0", opportunityId := "o0", baseToken := "WAVAX", quoteToken := "USDC" }

/-- Second opportunity on the pair already being traded (C4 witness). -/
def c4Opp : Opportunity :=
  { id := "o9", baseToken := "WAVAX", quoteToken := "USDC", profitPercentage := 2,
    expectedProfitUsd := 100, riskScore := 0.2, mevHigh := false, gasTotalCost := 10,
    timestamp := 0 }

/-- Executor-side active trade on the WAVAX pair (C4 witness). -/
def c4ExecActive : Trade := { sampleTrade with id := "t0" }

/-- Executor-side trade on the same WAVAX pair submitted second (C4 witness). -/
def c4ExecTrade : Trade := { sampleTrade with id := "t9" }

/-- C4 witness: with `c4ActiveTrade` active, the same-pair opportunity
`c4Opp` is dropped by both gates. -/
theorem same_pair_second_opportunity_dropped_witness :
    shouldExecuteTrade (fun _ => true) [c4ActiveTrade] c4Opp = false ∧
    (admitLoop 5 (fun _ => true) [c4Opp] [c4ActiveTrade]).countP
        (fun u => u.baseToken == c4Opp.baseToken)
      = [c4ActiveTrade].countP (fun u => u.baseToken == c4Opp.baseToken) ∧
    validateTrade [c4ExecActive] 10 c4ExecTrade ≠ .ok () :=
  same_pair_second_opportunity_dropped (fun _ => true) [c4ActiveTrade] c4Opp
    c4ActiveTrade (List.mem_singleton.mpr rfl) rfl 5 [c4Opp]
    [c4ExecActive] 10 c4ExecTrade c4ExecActive
    (List.mem_singleton.mpr rfl) rfl

/-- Stale opportunity for the C8 evaluation: detected at time 0, i.e. ten
minutes (600000 ms) before the drain, twice its 5-minute TTL. -/
def staleOpp : Opportunity :=
  { id := "opp1", baseToken := "WAVAX", quoteToken := "USDC", profitPercentage := 2,
    expectedProfitUsd := 100, riskScore := 0.2, mevHigh := false, gasTotalCost := 10,
    timestamp := 0 }

/-- Engine state at drain time for the C8 evaluation. -/
def c8State : EngineState :=
  { profitThreshold := 0.5, maxConcurrentTrades := 5, activeTrades := [],
    opportunities := [],
    metrics := { opportunitiesMissed := 0, detectedCounts := [] } }

/-- C8: evaluation of the drain path at the failing input.  An opportunity
whose age at drain time (600000 ms) exceeds the 5-minute TTL (300000 ms)
set on detection (`expiresAt = detectedAt + 5 min` in the source's
detection service) is nevertheless admitted and becomes a trade, and the
missed-opportunity counter is not incremented: `handlePriceUpdate`
contains no expiry check and `recordMissedOpportunity` has no caller in
the repository. -/
theorem stale_opportunity_admitted_not_counted_missed :
    staleOpp.timestamp + 300000 < 600000 ∧
    (handlePriceUpdate (fun _ => true) c8State [staleOpp]).activeTrades =
      [mkEngineTrade staleOpp] ∧
    (handlePriceUpdate (fun _ => true) c8State [staleOpp]).metrics.opportunitiesMissed = 0 := by
  refine ⟨by norm_num [staleOpp], ?_, ?_⟩ <;>
    norm_num [handlePriceUpdate, c8State, staleOpp, executeHighPriorityTrades, sortByScore,
      insertByScore, admitLoop, shouldExecuteTrade, mkEngineTrade, recordOpportunitiesDetected]

/-! ## WalletService.getNonce (WalletService.ts lines 309-331) -/

/-- Body of `WalletService.getNonce` for the wallet's single address, as
one non-overlapping call: on a cache hit return the cached nonce and
store its successor; on a miss fetch the network transaction count, add
the configured `nonceOffset`, cache the successor and return the
adjusted value.  Returns the allocated nonce and the cache afterwards. -/
def getNonce (networkNonce nonceOffset : ℕ) : Option ℕ → ℕ × Option ℕ
  | some cachedNonce => (cachedNonce, some (cachedNonce + 1))
  | none =>
    let adjustedNonce := networkNonce + nonceOffset
    (adjustedNonce, some (adjustedNonce + 1))

/-- Run of `k` successive non-overlapping `getNonce` calls, listing the
allocated nonces in order. -/
def getNonceRun (networkNonce nonceOffset : ℕ) : ℕ → Option ℕ → List ℕ
  | 0, _ => []
  | k + 1, cache =>
    let r := getNonce networkNonce nonceOffset cache
    r.1 :: getNonceRun networkNonce nonceOffset k r.2

/-- C3 (amended): non-overlapping `getNonce` calls allocate consecutive
nonces — the run of `k` calls returns `start, start+1, …, start+k-1`
(where `start` is the cached nonce, or network nonce plus offset on a
cold cache), a strictly increasing, gap-free, collision-free sequence.
The concurrency half of the original claim fails (see the collision
counterexample). -/
theorem getNonceRun_consecutive (networkNonce nonceOffset k : ℕ) (cache : Option ℕ) :
    getNonceRun networkNonce nonceOffset k cache =
      (List.range k).map (fun i => cache.getD (networkNonce + nonceOffset) + i) ∧
    List.Pairwise (· < ·) (getNonceRun networkNonce nonceOffset k cache) := by
  have main : ∀ (k : ℕ) (cache : Option ℕ),
      getNonceRun networkNonce nonceOffset k cache =
        (List.range k).map (fun i => cache.getD (networkNonce + nonceOffset) + i) := by
    intro k
    induction k with
    | zero => intro cache; rfl
    | succ k ih =>
      intro cache
      cases cache with
      | some c =>
        show c :: getNonceRun networkNonce nonceOffset k (some (c + 1)) = _
        rw [ih (some (c + 1)), List.range_succ_eq_map]
        simp only [List.map_cons, List.map_map, Option.getD_some]
        congr 1
        refine List.map_congr_left fun i _ => ?_
        simp only [Function.comp_apply]
        omega
      | none =>
        show (networkNonce + nonceOffset) ::
            getNonceRun networkNonce nonceOffset k (some (networkNonce + nonceOffset + 1)) = _
        rw [ih (some (networkNonce + nonceOffset + 1)), List.range_succ_eq_map]
        simp only [List.map_cons, List.map_map, Option.getD_some, Option.getD_none]
        congr 1
        refine List.map_congr_left fun i _ => ?_
        simp only [Function.comp_apply]
        omega
  refine ⟨main k cache, ?_⟩
  rw [main k cache]
  exact List.pairwise_lt_range k |>.map _ (fun a b hab => by omega)

/-- Program counter of one in-flight `getNonce` invocation.  The JS body
runs synchronously up to its first `await`: the cache-hit path (check,
increment, return) is one atomic segment; the cache-miss path suspends at
`await provider.getTransactionCount` and, on resume, writes
`adjustedNonce + 1` to the cache and returns `adjustedNonce`. -/
inductive NoncePC
  | start
  | awaitingFetch
  | finished (ret : ℕ)
  deriving Repr, DecidableEq

/-- Shared state of two concurrent `getNonce` invocations against the
wallet address's `nonceCache` entry. -/
structure NonceRace where
  cache : Option ℕ
  a : NoncePC
  b : NoncePC
  deriving Repr, DecidableEq

/-- One atomic segment of a single `getNonce` invocation (WalletService.ts
lines 309-331), split at the `await` suspension point as JS semantics
dictate. -/
def nonceStep (networkNonce nonceOffset : ℕ) (cache : Option ℕ) :
    NoncePC → NoncePC × Option ℕ
  | .start =>
    match cache with
    | some cachedNonce => (.finished cachedNonce, some (cachedNonce + 1))
    | none => (.awaitingFetch, cache)
  | .awaitingFetch =>
    let adjustedNonce := networkNonce + nonceOffset
    (.finished adjustedNonce, some (adjustedNonce + 1))
  | .finished r => (.finished r, cache)

/-- Run a schedule of atomic segments: `true` steps invocation A, `false`
steps invocation B. -/
def runNonceSchedule (networkNonce nonceOffset : ℕ) :
    List Bool → NonceRace → NonceRace
  | [], st => st
  | pick :: rest, st =>
    if pick then
      let r := nonceStep networkNonce nonceOffset st.cache st.a
      runNonceSchedule networkNonce nonceOffset rest { st with a := r.1, cache := r.2 }
    else
      let r := nonceStep networkNonce nonceOffset st.cache st.b
      runNonceSchedule networkNonce nonceOffset rest { st with b := r.1, cache := r.2 }

/-- C3 counterexample: two coordinators call `getNonce` concurrently with
a cold cache; both pass the cache check before either resumes from the
network fetch (schedule A, B, A, B), and both are allocated the same
nonce 7 — the allocation is not collision-free under concurrent callers,
refuting the claim's concurrency guarantee. -/
theorem concurrent_getNonce_collision :
    (runNonceSchedule 7 0 [true, false, true, false]
      { cache := none, a := .start, b := .start }).a = .finished 7 ∧
    (runNonceSchedule 7 0 [true, false, true, false]
      { cache := none, a := .start, b := .start }).b = .finished 7 :=
  ⟨rfl, rfl⟩

/-! ## RiskManagementService (MCPService.ts lines 1490-2175) -/

/-- Configured risk limits (`this.riskLimits`). -/
structure RiskLimits where
  maxDailyLoss : ℚ
  maxPositionSize : ℚ
  correlationThreshold : ℚ
  volatilityThreshold : ℚ
  minLiquidity : ℚ
  maxSlippage : ℚ
  deriving Repr, DecidableEq

/-- Rolling state read by the risk gate's decision: daily realized loss,
the configured limits, and the volatility/correlation caches. -/
structure RiskState where
  riskLimits : RiskLimits
  dailyLoss : ℚ
  volatilityCache : List (String × ℚ)
  positionCorrelations : List (String × ℚ)
  deriving Repr, DecidableEq

/-- Opportunity fields read by the risk assessment. -/
structure RiskOpportunity where
  id : String
  baseToken : String
  quoteToken : String
  buyExchange : String
  sellExchange : String
  buyPrice : ℚ
  sellPrice : ℚ
  optimalTradeSize : ℚ
  gasTotalCost : ℚ
  expectedProfitUsd : ℚ
  deriving Repr, DecidableEq

/-- RiskManagementService.getExchangeLiquidity (MCPService.ts lines
2096-2100): placeholder returning a constant $100k. -/
def getExchangeLiquidity (exchange : String) : ℚ := 100000

/-- RiskManagementService.calculateExpectedSlippage (MCPService.ts lines
2105-2109): placeholder returning 0.5%. -/
def calculateExpectedSlippage (o : RiskOpportunity) : ℚ := 0.5

/-- RiskManagementService.estimateExecutionTime (MCPService.ts lines
2114-2118): placeholder returning 15000 ms. -/
def estimateExecutionTime (o : RiskOpportunity) : ℚ := 15000

/-- RiskManagementService.getMarketConditions (MCPService.ts lines
2082-2091): placeholder returning 'neutral'. -/
def getMarketConditions : String := "neutral"

/-- RiskManagementService.getTradingJurisdiction (MCPService.ts lines
2123-2127): placeholder returning 'unrestricted'. -/
def getTradingJurisdiction : String := "unrestricted"

/-- Severity computed by `assessMarketRisk` (MCPService.ts lines
1776-1820): +0.4 when the cached base-token volatility (default 25)
exceeds the threshold, +0.3 when the relative price spread exceeds 5%,
+0.3 under 'bear'/'volatile' market conditions, capped at 1. -/
def assessMarketRiskSeverity (s : RiskState) (o : RiskOpportunity) : ℚ :=
  let sev : ℚ := 0
  let baseTokenVolatility := (s.volatilityCache.lookup o.baseToken).getD 25
  let sev := if baseTokenVolatility > s.riskLimits.volatilityThreshold then sev + 0.4 else sev
  let priceChange := |o.sellPrice - o.buyPrice| / o.buyPrice
  let sev := if priceChange > 0.05 then sev + 0.3 else sev
  let sev := if getMarketConditions == "bear" || getMarketConditions == "volatile" then
    sev + 0.3 else sev
  min sev 1

/-- Severity computed by `assessLiquidityRisk` (MCPService.ts lines
1825-1869): +0.4 when the trade size exceeds 10% of the minimum
liquidity, +0.3 per venue whose (placeholder) liquidity the trade size
exceeds 5% of, capped at 1. -/
def assessLiquidityRiskSeverity (s : RiskState) (o : RiskOpportunity) : ℚ :=
  let sev : ℚ := 0
  let sev := if o.optimalTradeSize > s.riskLimits.minLiquidity * 0.1 then sev + 0.4 else sev
  let buyExchangeLiquidity := getExchangeLiquidity o.buyExchange
  let sellExchangeLiquidity := getExchangeLiquidity o.sellExchange
  let sev := if o.optimalTradeSize > buyExchangeLiquidity * 0.05 then sev + 0.3 else sev
  let sev := if o.optimalTradeSize > sellExchangeLiquidity * 0.05 then sev + 0.3 else sev
  min sev 1

/-- Severity computed by `assessExecutionRisk` (MCPService.ts lines
1874-1918): +0.4 when gas costs exceed 30% of expected profit, +0.3 when
expected slippage exceeds the limit, +0.3 when the estimated execution
time exceeds 30 s, capped at 1. -/
def assessExecutionRiskSeverity (s : RiskState) (o : RiskOpportunity) : ℚ :=
  let sev : ℚ := 0
  let gasCostPercentage := o.gasTotalCost / o.expectedProfitUsd * 100
  let sev := if gasCostPercentage > 30 then sev + 0.4 else sev
  let sev := if calculateExpectedSlippage o > s.riskLimits.maxSlippage then sev + 0.3 else sev
  let sev := if estimateExecutionTime o > 30000 then sev + 0.3 else sev
  min sev 1

/-- Severity computed by `assessRegulatoryRisk` (MCPService.ts lines
1923-1967): +0.2 for regulated stablecoins, +0.4 in a restricted
jurisdiction, +0.3 above the $10k reporting threshold, capped at 1. -/
def assessRegulatoryRiskSeverity (o : RiskOpportunity) : ℚ :=
  let sev : ℚ := 0
  let regulatedTokens := ["USDC", "USDT", "DAI"]
  let sev := if regulatedTokens.contains o.baseToken ||
    regulatedTokens.contains o.quoteToken then sev + 0.2 else sev
  let sev := if getTradingJurisdiction == "restricted" then sev + 0.4 else sev
  let sev := if o.expectedProfitUsd > 10000 then sev + 0.3 else sev
  min sev 1

/-- Risk levels of `performRiskAssessment`. -/
inductive RiskLevel
  | low
  | medium
  | high
  | critical
  deriving Repr, DecidableEq

/-- Assessment record (tradeId, composite risk, level). -/
structure RiskAssessment where
  tradeId : String
  overallRisk : ℚ
  riskLevel : RiskLevel
  deriving Repr, DecidableEq

/-- RiskManagementService.performRiskAssessment (MCPService.ts lines
1710-1771): weighted severity sum (market 0.3, liquidity 0.25, execution
0.25, regulatory 0.2) and the level thresholds 0.3 / 0.6 / 0.8.  Its
side effects (`database.saveRiskAssessment`, metrics cache write) do not
touch `RiskState`. -/
def performRiskAssessment (s : RiskState) (o : RiskOpportunity) : RiskAssessment :=
  let overall := assessMarketRiskSeverity s o * 0.3 + assessLiquidityRiskSeverity s o * 0.25 +
    assessExecutionRiskSeverity s o * 0.25 + assessRegulatoryRiskSeverity o * 0.2
  let riskLevel : RiskLevel :=
    if overall ≤ 0.3 then .low
    else if overall ≤ 0.6 then .medium
    else if overall ≤ 0.8 then .high
    else .critical
  { tradeId := o.id, overallRisk := overall, riskLevel := riskLevel }

/-- RiskManagementService.checkDailyLossLimit (MCPService.ts lines
1972-1985): reject when the daily loss already reached the ceiling or
when this trade's worst-case loss (10% of trade size) would breach it. -/
def checkDailyLossLimit (s : RiskState) (o : RiskOpportunity) : Bool :=
  if s.dailyLoss ≥ s.riskLimits.maxDailyLoss then false
  else
    let potentialLoss := o.optimalTradeSize * 0.1
    if s.dailyLoss + potentialLoss > s.riskLimits.maxDailyLoss then false
    else true

/-- RiskManagementService.checkPositionSizeLimit (MCPService.ts lines
1990-1992). -/
def checkPositionSizeLimit (s : RiskState) (o : RiskOpportunity) : Bool :=
  decide (o.optimalTradeSize ≤ s.riskLimits.maxPositionSize)

/-- RiskManagementService.checkCorrelationLimit (MCPService.ts lines
1997-2002). -/
def checkCorrelationLimit (s : RiskState) (o : RiskOpportunity) : Bool :=
  let pairKey := o.baseToken ++ "_" ++ o.quoteToken
  decide ((s.positionCorrelations.lookup pairKey).getD 0 ≤ s.riskLimits.correlationThreshold)

/-- RiskManagementService.checkLiquidityRequirement (MCPService.ts lines
2007-2013). -/
def checkLiquidityRequirement (s : RiskState) (o : RiskOpportunity) : Bool :=
  let buyLiquidity := getExchangeLiquidity o.buyExchange
  let sellLiquidity := getExchangeLiquidity o.sellExchange
  decide (min buyLiquidity sellLiquidity ≥ s.riskLimits.minLiquidity)

/-- RiskManagementService.validateTrade (MCPService.ts lines 1652-1705):
assessment-level rejection of 'critical'/'high', then the daily-loss,
position-size, correlation and liquidity checks in order.  The result is
returned together with the rolling state afterwards, which the source
never writes to on this path. -/
def riskValidateTrade (s : RiskState) (o : RiskOpportunity) : Bool × RiskState :=
  let assessment := performRiskAssessment s o
  match assessment.riskLevel with
  | .critical => (false, s)
  | .high => (false, s)
  | _ =>
    if !checkDailyLossLimit s o then (false, s)
    else if !checkPositionSizeLimit s o then (false, s)
    else if !checkCorrelationLimit s o then (false, s)
    else if !checkLiquidityRequirement s o then (false, s)
    else (true, s)

/-- C9: RiskGate evaluation is idempotent — `validateTrade` leaves the
rolling risk state it decides over unchanged, so re-evaluating the same
opportunity against the resulting state yields the same accept/reject
decision. -/
theorem riskValidateTrade_idempotent (s : RiskState) (o : RiskOpportunity) :
    (riskValidateTrade s o).2 = s ∧
    (riskValidateTrade (riskValidateTrade s o).2 o).1 = (riskValidateTrade s o).1 := by
  have h2 : (riskValidateTrade s o).2 = s := by
    unfold riskValidateTrade
    dsimp only
    cases h : (performRiskAssessment s o).riskLevel <;>
      simp only [h] <;> split_ifs <;> rfl
  exact ⟨h2, by rw [h2]⟩

end Arbit
